import Mathlib

/-!
Verification of the file-routes discovery engine: a shallow embedding of
`src/file_routes` (directoryvisitor.py, inspection.py, utils.py,
filerouteinfo.py, frameworks/django.py, frameworks/flask.py) and of
`src/fs_routes/frameworks/django.py` (find_view), with theorems settling
the specification claims.

Strings are modelled as `List Char`; Python sets of characters as the list
of their members (only membership and emptiness are consulted); `os.walk`
output as an explicit list of (path-relative-to-root, filenames) entries in
traversal order; the dynamic module system as an explicit `ImportState`
threaded through the pass, with each execution of a source file stamped by
a counter so distinct loads are distinguishable.
-/

namespace FileRoutes

/-- Characters of a string literal, the working representation of Python str. -/
def chars (s : String) : List Char := s.toList

/-- The semantics of `RE_WILDCARD.match(s)` for
`RE_WILDCARD = re.compile(r"\[((?P<converter>[^_]+)_|)(?P<name>[^]]+)]")`
(directoryvisitor.py line 15): anchored at the start, the alternation tries
the converter branch first.  The greedy `[^_]+` can only denote the maximal
run of non-underscore characters followed by the first underscore, and
`[^]]+` the maximal run of non-bracket characters followed by a closing
bracket, so no further backtracking exists.  Returns the pair of groups
(converter, name) on success. -/
def reWildcardMatch (s : List Char) : Option (Option (List Char) × List Char) :=
  match s with
  | '[' :: rest =>
    let conv := rest.takeWhile (fun c => c ≠ '_')
    let alt1 : Option (Option (List Char) × List Char) :=
      if conv ≠ [] ∧ conv.length < rest.length then
        let after := rest.drop (conv.length + 1)
        let nm := after.takeWhile (fun c => c ≠ ']')
        if nm ≠ [] ∧ nm.length < after.length then some (some conv, nm) else none
      else none
    (match alt1 with
     | some r => some r
     | none =>
       let nm := rest.takeWhile (fun c => c ≠ ']')
       if nm ≠ [] ∧ nm.length < rest.length then some (none, nm) else none)
  | _ => none

/-- The data a concrete WebFramework subclass supplies to its
`expand_wildcards` method: the converter tokens it knows and the fallback
converter used when the name of a bare `[name]` segment is not a token. -/
structure WebFramework where
  knownConverters : List (List Char)
  defaultConverter : List Char

/-- `DjangoWebFramework`: `_ALL_CONVERTERS = get_converters().keys()`, the
default Django converter set (external constant from django.urls.converters),
with fallback "str" (frameworks/django.py lines 19-28). -/
def djangoFramework : WebFramework :=
  { knownConverters := [chars "int", chars "path", chars "slug", chars "str", chars "uuid"]
  , defaultConverter := chars "str" }

/-- `FlaskWebFramework.expand_wildcards`: literal converter list and fallback
"string" (frameworks/flask.py lines 12-19). -/
def flaskFramework : WebFramework :=
  { knownConverters := [chars "int", chars "float", chars "path", chars "string", chars "uuid"]
  , defaultConverter := chars "string" }

/-- Body shared by `DjangoWebFramework.expand_wildcards` and
`FlaskWebFramework.expand_wildcards`: if the converter group is absent, use
the name itself when it is a known converter token, else the framework's
default; an explicit converter token is used as given.  Renders
`<converter:name>`. -/
def expandWildcards (fw : WebFramework) (groups : Option (List Char) × List Char) : List Char :=
  let nm := groups.2
  let conv :=
    match groups.1 with
    | some c => c
    | none => if nm ∈ fw.knownConverters then nm else fw.defaultConverter
  '<' :: (conv ++ ':' :: (nm ++ ['>']))

/-- `DirectoryVisitor.expand_filename` (directoryvisitor.py lines 42-47):
replace a matching segment by the framework's placeholder and report whether
a transformation happened. -/
def expandFilename (fw : WebFramework) (filename : List Char) : List Char × Bool :=
  match reWildcardMatch filename with
  | some groups => (expandWildcards fw groups, true)
  | none => (filename, false)

/-- `os.path.join(a, b)` for a second component free of leading separators
except possibly absolute: an absolute second component wins; otherwise join
with a single "/" unless the first part is empty or already ends in "/". -/
def osPathJoin2 (a b : List Char) : List Char :=
  if b.head? = some '/' then b
  else if a = [] ∨ a.getLast? = some '/' then a ++ b
  else a ++ '/' :: b

/-- `os.path.join(*parts)` for a nonempty list of parts. -/
def osPathJoinList : List (List Char) → List Char
  | [] => []
  | p :: ps => ps.foldl osPathJoin2 p

/-- `directory_route[1:]` when it starts with "/". -/
def stripLeadingSlash (s : List Char) : List Char :=
  match s with
  | '/' :: rest => rest
  | _ => s

/-- `DirectoryVisitor.directory_expand_converters` (directoryvisitor.py
lines 49-58): strip one leading separator, expand each "/"-separated part,
rejoin.  The was-transformed flag of each part is discarded by the source
(`route, _ = self.expand_filename(part)`). -/
def directoryExpandConverters (fw : WebFramework) (directoryRoute : List Char) : List Char :=
  osPathJoinList (((stripLeadingSlash directoryRoute).splitOn '/').map
    (fun part => (expandFilename fw part).1))

/-- The specification's notion, stated for comparison with the source: the
directory prefix "contained a bracket segment that was transformed", i.e.
some "/"-separated part of the relative directory path is expanded with a
transformation. -/
def specDirectoryWasTransformed (fw : WebFramework) (directoryRoute : List Char) : Bool :=
  ((stripLeadingSlash directoryRoute).splitOn '/').any
    (fun part => (expandFilename fw part).2)

/-- `module_name, ext = filename.rsplit(".")` (directoryvisitor.py line 84):
the two-element unpacking succeeds exactly when the filename contains one
dot, and raises ValueError otherwise. -/
def rsplitDot (filename : List Char) : Option (List Char × List Char) :=
  if filename.count '.' = 1 then
    some (filename.takeWhile (fun c => c ≠ '.'), (filename.dropWhile (fun c => c ≠ '.')).tail)
  else none

/-- `FORBIDDEN_FILENAME_CHARS` (utils.py). -/
def forbiddenFilenameChars : List Char := chars "<>:\"/\\|?*"

/-- `route_contains_invalid_characters` (utils.py lines 15-16): the source
computes `set(module_name) - FORBIDDEN_FILENAME_CHARS`, the characters of
the stem that are NOT in the forbidden set (set difference, not
intersection); the set is modelled as the list of its members. -/
def routeContainsInvalidCharacters (moduleName : List Char) : List Char :=
  moduleName.filter (fun c => c ∉ forbiddenFilenameChars)

/-- Diagnostics (`CheckWarning` values), identified by their stable code and
the data interpolated into their message. -/
inductive Diag where
  | w001NotAFunction (candidate moduleName : List Char)
  | w002NotAClass (candidate moduleName : List Char)
  | w003NotASubclass (candidate moduleName : List Char)
  | w004CouldNotFindView (routeOrModuleName : List Char)
  | w005InvalidCharacters (filename badChars : List Char)
  | w006WrongType (moduleName attrName : List Char)
deriving DecidableEq

/-- `FileRouteInfo` (filerouteinfo.py): one discovered route. -/
structure FileRouteInfo where
  filename : List Char
  name : List Char
  is_wildcard : Bool
deriving DecidableEq

/-- The only exception the embedded code can raise: the ValueError of the
two-element unpacking of `filename.rsplit(".")`. -/
inductive PyError where
  | valueError
deriving DecidableEq

def indexStem : List Char := chars "index"

def initStem : List Char := chars "__init__"

/-- Route name and wildcard flag for a stem that survived the extension
filter and the `__init__` skip (directoryvisitor.py lines 98-107): `index`
maps to the directory route (plus a trailing "/" when nonempty) and is
never a wildcard; any other stem is expanded and prefixed by the directory
route when that is nonempty. -/
def routeForStem (fw : WebFramework) (directoryRoute stem : List Char) : List Char × Bool :=
  if stem = indexStem then
    (if directoryRoute = [] then directoryRoute else directoryRoute ++ ['/'], false)
  else
    let ex := expandFilename fw stem
    (if directoryRoute = [] then ex.1 else directoryRoute ++ '/' :: ex.1, ex.2)

/-- Loop state of `visit_one_directory`: the two route lists being built and
the trace of CheckWarning values constructed (the source constructs them and
binds them to nothing). -/
structure VisitState where
  normalRoutes : List FileRouteInfo
  wildcardRoutes : List FileRouteInfo
  constructed : List Diag
deriving DecidableEq

/-- One iteration of the loop body of `visit_one_directory`
(directoryvisitor.py lines 83-116): unpack stem and extension (ValueError
when the dot count is not one), skip foreign extensions, construct the W005
warning when `route_contains_invalid_characters` is truthy, skip `__init__`,
then append the route to the wildcard or the normal list. -/
def visitStep (fw : WebFramework) (directory directoryRoute : List Char)
    (extensions : List (List Char)) (st : VisitState) (filename : List Char) :
    Except PyError VisitState :=
  match rsplitDot filename with
  | none => .error .valueError
  | some se =>
    if se.2 ∈ extensions then
      let badChars := routeContainsInvalidCharacters se.1
      let st1 := if badChars = [] then st
        else { st with constructed := st.constructed ++ [Diag.w005InvalidCharacters filename badChars] }
      if se.1 = initStem then .ok st1
      else
        let rs := routeForStem fw directoryRoute se.1
        let r : FileRouteInfo := ⟨osPathJoin2 directory filename, rs.1, rs.2⟩
        if rs.2 then .ok { st1 with wildcardRoutes := st1.wildcardRoutes ++ [r] }
        else .ok { st1 with normalRoutes := st1.normalRoutes ++ [r] }
    else .ok st

/-- `DirectoryVisitor.visit_one_directory` (directoryvisitor.py lines
74-118): run the loop over the enumerated filenames, then yield all normal
routes followed by all wildcard routes.  Also returns the trace of
constructed diagnostics. -/
def visitOneDirectory (fw : WebFramework) (directory directoryRoute : List Char)
    (filenames extensions : List (List Char)) :
    Except PyError (List FileRouteInfo × List Diag) := do
  let st ← filenames.foldlM (visitStep fw directory directoryRoute extensions) ⟨[], [], []⟩
  return (st.normalRoutes ++ st.wildcardRoutes, st.constructed)

/-- The route (if any) that one enumerated filename contributes, read off
the loop body: none when the unpacking fails, the extension is foreign, or
the stem is `__init__`. -/
def routeOfFilename (fw : WebFramework) (directory directoryRoute : List Char)
    (extensions : List (List Char)) (filename : List Char) : Option FileRouteInfo :=
  match rsplitDot filename with
  | none => none
  | some se =>
    if se.2 ∈ extensions then
      if se.1 = initStem then none
      else
        let rs := routeForStem fw directoryRoute se.1
        some ⟨osPathJoin2 directory filename, rs.1, rs.2⟩
    else none

/-- The diagnostics one enumerated filename causes to be constructed. -/
def diagOfFilename (extensions : List (List Char)) (filename : List Char) : List Diag :=
  match rsplitDot filename with
  | none => []
  | some se =>
    if se.2 ∈ extensions then
      let badChars := routeContainsInvalidCharacters se.1
      if badChars = [] then [] else [Diag.w005InvalidCharacters filename badChars]
    else []

/-- One directory entry of `collect_routes_from_directory` (directoryvisitor.py
lines 60-72): `subdirectory = directory + relative`, and the directory route
is the expansion of the relative path. -/
def visitWalkEntry (fw : WebFramework) (rootDirectory : List Char)
    (extensions : List (List Char)) (entry : List Char × List (List Char)) :
    Except PyError (List FileRouteInfo × List Diag) :=
  visitOneDirectory fw (rootDirectory ++ entry.1) (directoryExpandConverters fw entry.1)
    entry.2 extensions

/-- `DirectoryVisitor.collect_routes_from_directory`: iterate the `os.walk`
output (modelled as the list of (relative path, filenames) entries in
traversal order, `__pycache__` already pruned by the walk loop) and yield
each directory's routes in turn. -/
def collectRoutesFromDirectory (fw : WebFramework) (rootDirectory : List Char)
    (walkOutput : List (List Char × List (List Char))) (extensions : List (List Char)) :
    Except PyError (List FileRouteInfo × List Diag) :=
  walkOutput.foldlM (fun acc entry => do
    let v ← visitWalkEntry fw rootDirectory extensions entry
    return (acc.1 ++ v.1, acc.2 ++ v.2)) ([], [])

/-- A snapshot value of a module attribute, with exactly the distinctions the
inspected code consults: `inspect.isfunction`, `inspect.isclass`, identity
with the framework's View base class, `issubclass` of it, and
`isinstance(-, str)`. -/
inductive Attr where
  | pyfunction
  | pyclass (isViewBase subclassOfViewBase : Bool)
  | pystr (value : List Char)
  | pyother (typeName : List Char)
deriving DecidableEq

/-- `self.attributes.get(candidate)` on the snapshot. -/
def lookupAttr (k : List Char) : List (List Char × Attr) → Option Attr
  | [] => none
  | (k', v) :: rest => if k' = k then some v else lookupAttr k rest

/-- A loaded module object: its `__name__`, its attribute snapshot, and the
stamp of the execution that created it (each `exec_module` call produces a
fresh module object). -/
structure PyModule where
  moduleName : List Char
  attributes : List (List Char × Attr)
  execId : Nat
deriving DecidableEq

/-- The process-wide state touched by importing: `sys.modules` and the count
of file executions performed so far. -/
structure ImportState where
  sysModules : List (List Char × PyModule)
  execCount : Nat
deriving DecidableEq

/-- `sys.modules[module_name] = module`: overwrite or append. -/
def setModule (k : List Char) (v : PyModule) :
    List (List Char × PyModule) → List (List Char × PyModule)
  | [] => [(k, v)]
  | (k', v') :: rest => if k' = k then (k, v) :: rest else (k', v') :: setModule k v rest

/-- `sys.modules.get(module_name)`. -/
def lookupModule (k : List Char) : List (List Char × PyModule) → Option PyModule
  | [] => none
  | (k', v) :: rest => if k' = k then some v else lookupModule k rest

/-- `filename[:-3]`. -/
def stripPyExt (filename : List Char) : List Char := filename.take (filename.length - 3)

/-- `filename_to_module_path` (inspection.py lines 128-130):
`filename[:-3].replace("/", ".")`. -/
def filenameToModulePath (filename : List Char) : List Char :=
  (stripPyExt filename).map (fun c => if c = '/' then '.' else c)

/-- `import_filename_and_guess_module_from_path` (inspection.py lines
133-141): synthesize the module identity, create a fresh module by executing
the file (its attribute snapshot given by `disk`), store it into
`sys.modules` under the identity, and return it.  No prior registration is
consulted: every call executes the file and assigns the registry slot. -/
def importFilenameAndGuessModuleFromPath (disk : List Char → List (List Char × Attr))
    (st : ImportState) (filename : List Char) : PyModule × ImportState :=
  let moduleName := filenameToModulePath filename
  let m : PyModule := ⟨moduleName, disk filename, st.execCount⟩
  (m, ⟨setModule moduleName m st.sysModules, st.execCount + 1⟩)

/-- `InspectedModuleInfo` (inspection.py): module, attribute snapshot,
accumulated warnings. -/
structure InspectedModuleInfo where
  moduleName : List Char
  attributes : List (List Char × Attr)
  warnings : List Diag
deriving DecidableEq

/-- `inspect_module`: snapshot the attributes, empty warning list. -/
def inspectModule (m : PyModule) : InspectedModuleInfo := ⟨m.moduleName, m.attributes, []⟩

/-- `InspectedModuleInfo.warning`: append to the module's warning list. -/
def addWarning (m : InspectedModuleInfo) (d : Diag) : InspectedModuleInfo :=
  { m with warnings := m.warnings ++ [d] }

/-- `InspectedModuleInfo.find_function_by_name` (inspection.py lines 43-59):
first candidate whose attribute exists and is a function; an existing
non-function candidate appends one W001 warning and the search continues.
Returns the matched candidate name and the updated module info. -/
def findFunctionByName (m : InspectedModuleInfo) :
    List (List Char) → Option (List Char) × InspectedModuleInfo
  | [] => (none, m)
  | candidate :: rest =>
    match lookupAttr candidate m.attributes with
    | none => findFunctionByName m rest
    | some .pyfunction => (some candidate, m)
    | some _ => findFunctionByName (addWarning m (.w001NotAFunction candidate m.moduleName)) rest

/-- `InspectedModuleInfo.find_class_by_name` with `issubclass_of` given
(inspection.py lines 61-104): non-classes warn W002 and continue; the base
class itself is silently skipped; a class that is not a subclass warns W003
and continues; otherwise the candidate matches. -/
def findClassByName (m : InspectedModuleInfo) :
    List (List Char) → Option (List Char) × InspectedModuleInfo
  | [] => (none, m)
  | candidate :: rest =>
    match lookupAttr candidate m.attributes with
    | none => findClassByName m rest
    | some (.pyclass isBase sub) =>
      if isBase then findClassByName m rest
      else if sub then (some candidate, m)
      else findClassByName (addWarning m (.w003NotASubclass candidate m.moduleName)) rest
    | some _ => findClassByName (addWarning m (.w002NotAClass candidate m.moduleName)) rest

/-- `InspectedModuleInfo.get_attribute_by_type` at type `str` with a `str`
default (inspection.py lines 106-118): return the attribute when it is a
str; a present but wrong-typed attribute constructs a W006 warning (which
the source binds to nothing) and falls back to the default; an absent
attribute returns the (str) default with no warning. -/
def getAttributeByTypeStr (m : InspectedModuleInfo) (attrName dflt : List Char) :
    List Char × List Diag :=
  match lookupAttr attrName m.attributes with
  | some (.pystr v) => (v, [])
  | some _ => (dflt, [Diag.w006WrongType m.moduleName attrName])
  | none => (dflt, [])

/-- A resolved view handle: which attribute matched, and for a Flask class
view the endpoint name passed to `as_view`. -/
inductive ViewHandle where
  | functionView (attributeName : List Char)
  | classAsView (attributeName : List Char)
  | classAsViewNamed (attributeName routeName : List Char)
deriving DecidableEq

def viewLower : List Char := chars "view"

def viewUpper : List Char := chars "View"

/-- `DjangoWebFramework.analyze` (frameworks/django.py lines 30-39):
function `view`, else class `View`, else nothing. -/
def djangoAnalyze (_fileRoute : FileRouteInfo) (m : InspectedModuleInfo) :
    Option ViewHandle × InspectedModuleInfo × List Diag :=
  match findFunctionByName m [viewLower] with
  | (some f, m1) => (some (.functionView f), m1, [])
  | (none, m1) =>
    match findClassByName m1 [viewUpper] with
    | (some c, m2) => (some (.classAsView c), m2, [])
    | (none, m2) => (none, m2, [])

/-- `FlaskWebFramework.analyze` (frameworks/flask.py lines 21-35): like
Django's, but a class view reads the optional `route_name` attribute
(default: the route's name) before `as_view`. -/
def flaskAnalyze (fileRoute : FileRouteInfo) (m : InspectedModuleInfo) :
    Option ViewHandle × InspectedModuleInfo × List Diag :=
  match findFunctionByName m [viewLower] with
  | (some f, m1) => (some (.functionView f), m1, [])
  | (none, m1) =>
    match findClassByName m1 [viewUpper] with
    | (some c, m2) =>
      let rn := getAttributeByTypeStr m2 (chars "route_name") fileRoute.name
      (some (.classAsViewNamed c rn.1), m2, rn.2)
    | (none, m2) => (none, m2, [])

/-- One iteration of the loop of `DirectoryVisitor.visit_and_analyze`
(directoryvisitor.py lines 22-39): import the file, inspect it, ask the
framework for a view; collect the pair on success, otherwise construct the
W004 warning (which the source binds to nothing).  The inspected module info
(with any warnings appended to it) is dropped after the iteration. -/
def analyzeStep
    (analyze : FileRouteInfo → InspectedModuleInfo → Option ViewHandle × InspectedModuleInfo × List Diag)
    (disk : List Char → List (List Char × Attr))
    (acc : List (FileRouteInfo × ViewHandle) × ImportState × List Diag)
    (fileRoute : FileRouteInfo) :
    List (FileRouteInfo × ViewHandle) × ImportState × List Diag :=
  let ims := importFilenameAndGuessModuleFromPath disk acc.2.1 fileRoute.filename
  match analyze fileRoute (inspectModule ims.1) with
  | (some v, _, ds) => (acc.1 ++ [(fileRoute, v)], ims.2, acc.2.2 ++ ds)
  | (none, _, ds) => (acc.1, ims.2, acc.2.2 ++ ds ++ [Diag.w004CouldNotFindView fileRoute.name])

/-- `DirectoryVisitor.visit_and_analyze`: collect the routes, then resolve a
view per route.  Returns the route-view pairs (the Python return value), the
final import state (the process-wide `sys.modules`), and the trace of
diagnostics constructed during the pass. -/
def visitAndAnalyze
    (analyze : FileRouteInfo → InspectedModuleInfo → Option ViewHandle × InspectedModuleInfo × List Diag)
    (fw : WebFramework) (disk : List Char → List (List Char × Attr))
    (rootDirectory : List Char) (walkOutput : List (List Char × List (List Char)))
    (extensions : List (List Char)) (st0 : ImportState) :
    Except PyError (List (FileRouteInfo × ViewHandle) × ImportState × List Diag) := do
  let collected ← collectRoutesFromDirectory fw rootDirectory walkOutput extensions
  return collected.1.foldl (analyzeStep analyze disk) ([], st0, collected.2)

/-- `os.path.basename` for the paths at hand: the part after the last "/". -/
def basename (p : List Char) : List Char := (p.reverse.takeWhile (fun c => c ≠ '/')).reverse

/-- `get_default_view_name` (filerouteinfo.py lines 24-32, identical logic in
django_fs_routes/routes.py lines 120-128): `index` for the directory's own
route or an `index` stem, the hyphen-normalized stem for a non-wildcard
route, nothing for a wildcard. -/
def getDefaultViewName (route : FileRouteInfo) : Option (List Char) :=
  let baseName := stripPyExt (basename route.filename)
  if route.name = [] ∨ baseName = indexStem then some indexStem
  else if route.is_wildcard = false then
    some (baseName.map (fun c => if c = '-' then '_' else c))
  else none

/-- Python `str.capitalize`: first character upper, the rest lower. -/
def pyCapitalize (w : List Char) : List Char :=
  match w with
  | [] => []
  | c :: cs => c.toUpper :: cs.map Char.toLower

/-- `underscore_to_camel_case` (utils.py lines 19-21):
`"".join(c.capitalize() or "_" for c in word.split("_"))`. -/
def underscoreToCamelCase (word : List Char) : List Char :=
  ((word.splitOn '_').map (fun c => if c = [] then ['_'] else pyCapitalize c)).flatten

/-- `find_view` (fs_routes/frameworks/django.py lines 42-78): build the
candidate name lists — note the source seeds `class_names = [class_suggestion]`
with `"View"` and then APPENDS the PascalCase name, so `"View"` is tried
first — then search functions before classes, constructing the (discarded)
W004 warning when nothing matches. -/
def findView (viewRoute : FileRouteInfo) (m : InspectedModuleInfo) :
    Option ViewHandle × InspectedModuleInfo × List Diag :=
  let functionNames :=
    match getDefaultViewName viewRoute with
    | none => [viewLower]
    | some b => [b ++ chars "_view", b, viewLower]
  let classNames :=
    match getDefaultViewName viewRoute with
    | none => [viewUpper]
    | some b => [viewUpper, underscoreToCamelCase b ++ viewUpper]
  match findFunctionByName m functionNames with
  | (some f, m1) => (some (.functionView f), m1, [])
  | (none, m1) =>
    match findClassByName m1 classNames with
    | (some c, m2) => (some (.classAsView c), m2, [])
    | (none, m2) => (none, m2, [Diag.w004CouldNotFindView m.moduleName])

/-- W001 warning that a candidate contributes during a
`find_function_by_name` search, if any: an existing non-function attribute
contributes exactly one. -/
def w001Of (m : InspectedModuleInfo) (candidate : List Char) : Option Diag :=
  match lookupAttr candidate m.attributes with
  | none => none
  | some .pyfunction => none
  | some _ => some (.w001NotAFunction candidate m.moduleName)

instance {ε α : Type} [DecidableEq ε] [DecidableEq α] : DecidableEq (Except ε α)
  | .ok a, .ok b =>
    if h : a = b then .isTrue (congrArg Except.ok h)
    else .isFalse (fun hh => h (Except.ok.inj hh))
  | .ok _, .error _ => .isFalse (fun hh => Except.noConfusion hh)
  | .error _, .ok _ => .isFalse (fun hh => Except.noConfusion hh)
  | .error e, .error f =>
    if h : e = f then .isTrue (congrArg Except.error h)
    else .isFalse (fun hh => h (Except.error.inj hh))

/-- An `os.walk` output used as concrete input: the root holds `[str].py`
enumerated before `normal.py`, a subdirectory `sub` holds `page.py` and a
package marker. -/
def c1walkExample : List (List Char × List (List Char)) :=
  [([], [chars "[str].py", chars "normal.py"]), (chars "/sub", [chars "page.py", chars "__init__.py"])]

/-- The compiled output for `c1walkExample`: within the root, `normal`
precedes `<str:str>` although the enumeration listed `[str].py` first; the
subdirectory's route follows. -/
def c1outExample : List FileRouteInfo × List Diag :=
  ([⟨chars "routes/normal.py", chars "normal", false⟩,
    ⟨chars "routes/[str].py", chars "<str:str>", true⟩,
    ⟨chars "routes/sub/page.py", chars "sub/page", false⟩],
   [Diag.w005InvalidCharacters (chars "[str].py") (chars "[str]"),
    Diag.w005InvalidCharacters (chars "normal.py") (chars "normal"),
    Diag.w005InvalidCharacters (chars "page.py") (chars "page"),
    Diag.w005InvalidCharacters (chars "__init__.py") (chars "__init__")])

/-- An `os.walk` output with `index.py` at the root and `index.py` plus
`__init__.py` in a subdirectory `blog`. -/
def c9walkExample : List (List Char × List (List Char)) :=
  [([], [chars "index.py"]), (chars "/blog", [chars "index.py", chars "__init__.py"])]

/-- The compiled output for `c9walkExample`: the root index has route name
"", the subdirectory index has "blog/", and `__init__.py` yields nothing. -/
def c9outExample : List FileRouteInfo × List Diag :=
  ([⟨chars "routes/index.py", [], false⟩,
    ⟨chars "routes/blog/index.py", chars "blog/", false⟩],
   [Diag.w005InvalidCharacters (chars "index.py") (chars "index"),
    Diag.w005InvalidCharacters (chars "index.py") (chars "index"),
    Diag.w005InvalidCharacters (chars "__init__.py") (chars "__init__")])

/-- A route for the file stem `home`, as `find_view` receives it. -/
def c4route : FileRouteInfo := ⟨chars "routes/home.py", chars "home", false⟩

/-- A module exporting two proper subclasses of the View base, one named
`View` and one named `HomeView`, and no function. -/
def c4classModule : InspectedModuleInfo :=
  ⟨chars "routes.home",
   [(chars "View", Attr.pyclass false true), (chars "HomeView", Attr.pyclass false true)], []⟩

/-- A module exporting functions `home`, `home_view` and `view`. -/
def c4funcModule : InspectedModuleInfo :=
  ⟨chars "routes.home",
   [(chars "home", Attr.pyfunction), (chars "home_view", Attr.pyfunction),
    (chars "view", Attr.pyfunction)], []⟩

/-- A route for the file stem `home`, as the Flask analyze receives it. -/
def c7route : FileRouteInfo := ⟨chars "routes/home.py", chars "home", false⟩

/-- A module with a proper View subclass and a wrong-typed `route_name`. -/
def c7flaskModule : InspectedModuleInfo :=
  ⟨chars "routes.home",
   [(chars "View", Attr.pyclass false true), (chars "route_name", Attr.pyother (chars "int"))], []⟩

/-- The two-element unpacking fails exactly when the dot count is not one. -/
theorem rsplitDot_none_iff (fn : List Char) : rsplitDot fn = none ↔ ¬ fn.count '.' = 1 := by
  unfold rsplitDot
  split <;> simp_all

/-- The wildcard flag `routeForStem` assigns: false for `index`, otherwise
the file segment's own was-transformed flag. -/
theorem routeForStem_snd (fw : WebFramework) (dr stem : List Char) :
    (routeForStem fw dr stem).2 =
      (if stem = indexStem then false else (expandFilename fw stem).2) := by
  unfold routeForStem
  split <;> simp

/-- One loop iteration of `visit_one_directory`, written as the appends it
performs: a ValueError when the unpacking fails, otherwise the new state
appends the filename's route to the matching list and its diagnostics to
the trace. -/
theorem visitStep_eq (fw : WebFramework) (d dr : List Char) (exts : List (List Char))
    (st : VisitState) (fn : List Char) :
    visitStep fw d dr exts st fn =
      match rsplitDot fn with
      | none => .error .valueError
      | some _ =>
        .ok ⟨st.normalRoutes ++ ((routeOfFilename fw d dr exts fn).toList.filter
              (fun r => r.is_wildcard = false)),
            st.wildcardRoutes ++ ((routeOfFilename fw d dr exts fn).toList.filter
              (fun r => r.is_wildcard = true)),
            st.constructed ++ diagOfFilename exts fn⟩ := by
  unfold visitStep routeOfFilename diagOfFilename
  cases hs : rsplitDot fn with
  | none => rfl
  | some se =>
    obtain ⟨stem, ext⟩ := se
    by_cases hext : ext ∈ exts
    · by_cases hbad : routeContainsInvalidCharacters stem = []
      · by_cases hinit : stem = initStem
        · subst hinit; simp [hext, hbad]
        · by_cases hw : (routeForStem fw dr stem).2 = true
          · simp [hext, hbad, hinit, hw]
          · simp [hext, hbad, hinit, hw]
      · by_cases hinit : stem = initStem
        · subst hinit; simp [hext, hbad]
        · by_cases hw : (routeForStem fw dr stem).2 = true
          · simp [hext, hbad, hinit, hw]
          · simp [hext, hbad, hinit, hw]
    · simp [hext]

/-- Characterization of the whole loop: on success, the final state appends
the partitioned routes and the concatenated diagnostics of the processed
filenames, in enumeration order. -/
theorem visit_fold_ok (fw : WebFramework) (d dr : List Char) (exts : List (List Char)) :
    ∀ (fns : List (List Char)) (st out : VisitState),
      fns.foldlM (visitStep fw d dr exts) st = .ok out →
      out = ⟨st.normalRoutes ++ ((fns.filterMap (routeOfFilename fw d dr exts)).filter
                (fun r => r.is_wildcard = false)),
             st.wildcardRoutes ++ ((fns.filterMap (routeOfFilename fw d dr exts)).filter
                (fun r => r.is_wildcard = true)),
             st.constructed ++ fns.flatMap (diagOfFilename exts)⟩ := by
  intro fns
  induction fns with
  | nil =>
    intro st out h
    simp only [List.foldlM_nil] at h
    cases h
    simp
  | cons fn rest ih =>
    intro st out h
    rw [List.foldlM_cons, visitStep_eq] at h
    cases hs : rsplitDot fn with
    | none => rw [hs] at h; exact absurd h (by simp [Bind.bind, Except.bind])
    | some se =>
      rw [hs] at h
      have h' : rest.foldlM (visitStep fw d dr exts)
          ⟨st.normalRoutes ++ ((routeOfFilename fw d dr exts fn).toList.filter
              (fun r => r.is_wildcard = false)),
           st.wildcardRoutes ++ ((routeOfFilename fw d dr exts fn).toList.filter
              (fun r => r.is_wildcard = true)),
           st.constructed ++ diagOfFilename exts fn⟩ = .ok out := h
      have hrec := ih _ _ h'
      cases hr : routeOfFilename fw d dr exts fn with
      | none =>
        simp only [hr, Option.toList_none, List.filter_nil, List.append_nil] at hrec
        simp [hrec, List.filterMap_cons, hr, List.flatMap_cons, List.append_assoc]
      | some r =>
        by_cases hw : r.is_wildcard
        · simp only [hr] at hrec
          simp [hrec, List.filterMap_cons, hr, List.flatMap_cons, List.append_assoc,
            List.filter_cons, hw]
        · simp only [hr] at hrec
          simp [hrec, List.filterMap_cons, hr, List.flatMap_cons, List.append_assoc,
            List.filter_cons, hw]

/-- `visit_one_directory` on success yields the non-wildcard routes first,
then the wildcard routes, each in enumeration order, plus its trace. -/
theorem visitOneDirectory_ok (fw : WebFramework) (d dr : List Char)
    (fns exts : List (List Char)) (routes : List FileRouteInfo) (ds : List Diag)
    (h : visitOneDirectory fw d dr fns exts = .ok (routes, ds)) :
    routes = ((fns.filterMap (routeOfFilename fw d dr exts)).filter
                (fun r => r.is_wildcard = false)) ++
             ((fns.filterMap (routeOfFilename fw d dr exts)).filter
                (fun r => r.is_wildcard = true)) ∧
    ds = fns.flatMap (diagOfFilename exts) := by
  unfold visitOneDirectory at h
  cases hf : fns.foldlM (visitStep fw d dr exts) ⟨[], [], []⟩ with
  | error e => rw [hf] at h; exact absurd h (by simp [Bind.bind, Except.bind])
  | ok st =>
    rw [hf] at h
    have hst := visit_fold_ok fw d dr exts fns ⟨[], [], []⟩ st hf
    have h' : Except.ok (ε := PyError) (st.normalRoutes ++ st.wildcardRoutes, st.constructed)
        = .ok (routes, ds) := h
    cases h'
    subst hst
    simp

/-- Characterization of `collect_routes_from_directory`: on success it is
the concatenation, in walk order, of each directory's partitioned routes
and of each directory's diagnostics. -/
theorem collect_fold_ok (fw : WebFramework) (root : List Char) (exts : List (List Char)) :
    ∀ (entries : List (List Char × List (List Char)))
      (acc out : List FileRouteInfo × List Diag),
      entries.foldlM (fun acc entry => do
          let v ← visitWalkEntry fw root exts entry
          return (acc.1 ++ v.1, acc.2 ++ v.2)) acc = .ok out →
      out.1 = acc.1 ++ entries.flatMap (fun entry =>
          ((entry.2.filterMap (routeOfFilename fw (root ++ entry.1)
              (directoryExpandConverters fw entry.1) exts)).filter
            (fun r => r.is_wildcard = false)) ++
          ((entry.2.filterMap (routeOfFilename fw (root ++ entry.1)
              (directoryExpandConverters fw entry.1) exts)).filter
            (fun r => r.is_wildcard = true))) ∧
      out.2 = acc.2 ++ entries.flatMap (fun entry => entry.2.flatMap (diagOfFilename exts)) := by
  intro entries
  induction entries with
  | nil =>
    intro acc out h
    simp only [List.foldlM_nil] at h
    cases h
    simp
  | cons e rest ih =>
    intro acc out h
    rw [List.foldlM_cons] at h
    cases hv : visitWalkEntry fw root exts e with
    | error err => rw [hv] at h; exact absurd h (by simp [Bind.bind, Except.bind])
    | ok v =>
      rw [hv] at h
      have h' : rest.foldlM (fun acc entry => do
          let v ← visitWalkEntry fw root exts entry
          return (acc.1 ++ v.1, acc.2 ++ v.2)) (acc.1 ++ v.1, acc.2 ++ v.2) = .ok out := h
      have hrec := ih _ _ h'
      have hv' : visitOneDirectory fw (root ++ e.1) (directoryExpandConverters fw e.1)
          e.2 exts = .ok (v.1, v.2) := hv
      obtain ⟨hv1, hv2⟩ := visitOneDirectory_ok fw (root ++ e.1)
        (directoryExpandConverters fw e.1) e.2 exts v.1 v.2 hv'
      refine ⟨?_, ?_⟩
      · rw [hrec.1, hv1, List.flatMap_cons, List.append_assoc]
      · rw [hrec.2, hv2, List.flatMap_cons, List.append_assoc]

/-- The loop over one directory's filenames reaches its end exactly when
every enumerated filename has exactly one dot. -/
theorem visit_fold_total (fw : WebFramework) (d dr : List Char) (exts : List (List Char)) :
    ∀ (fns : List (List Char)) (st : VisitState),
      (∃ out, fns.foldlM (visitStep fw d dr exts) st = .ok out) ↔
        ∀ fn ∈ fns, fn.count '.' = 1 := by
  intro fns
  induction fns with
  | nil =>
    intro st
    simp only [List.foldlM_nil, List.not_mem_nil, false_implies, implies_true, iff_true]
    exact ⟨st, rfl⟩
  | cons fn rest ih =>
    intro st
    rw [List.foldlM_cons]
    have he := visitStep_eq fw d dr exts st fn
    cases hs : rsplitDot fn with
    | none =>
      have hc : ¬ fn.count '.' = 1 := (rsplitDot_none_iff fn).mp hs
      rw [hs] at he
      rw [he]
      simp [Bind.bind, Except.bind, hc]
    | some se =>
      have hc : fn.count '.' = 1 := by
        by_contra hcc
        rw [← rsplitDot_none_iff fn, hs] at hcc
        exact Option.noConfusion hcc
      rw [hs] at he
      rw [he]
      simp only [Bind.bind, Except.bind]
      rw [ih]
      simp [hc]

/-- Inserting under a key makes that key's lookup return the new value. -/
theorem lookupModule_setModule (k : List Char) (v : PyModule)
    (l : List (List Char × PyModule)) : lookupModule k (setModule k v l) = some v := by
  induction l with
  | nil => simp [setModule, lookupModule]
  | cons p rest ih =>
    by_cases h : p.1 = k
    · obtain ⟨k', v'⟩ := p
      simp only at h
      simp [setModule, lookupModule, h]
    · obtain ⟨k', v'⟩ := p
      simp only at h
      simp [setModule, lookupModule, h, ih]

/-- C1: for every directory the walk visits, `visit_one_directory` yields
the non-wildcard routes first, then the wildcard routes, each group in the
order the filenames were enumerated, and the collected sequence is the
per-directory sequences concatenated in walk order with no global
re-sorting. -/
theorem c1_ordering (fw : WebFramework) (rootDirectory : List Char)
    (walkOutput : List (List Char × List (List Char))) (extensions : List (List Char))
    (out : List FileRouteInfo × List Diag)
    (h : collectRoutesFromDirectory fw rootDirectory walkOutput extensions = .ok out) :
    out.1 = walkOutput.flatMap (fun entry =>
      ((entry.2.filterMap (routeOfFilename fw (rootDirectory ++ entry.1)
          (directoryExpandConverters fw entry.1) extensions)).filter
        (fun r => r.is_wildcard = false)) ++
      ((entry.2.filterMap (routeOfFilename fw (rootDirectory ++ entry.1)
          (directoryExpandConverters fw entry.1) extensions)).filter
        (fun r => r.is_wildcard = true))) := by
  unfold collectRoutesFromDirectory at h
  have hh := (collect_fold_ok fw rootDirectory extensions walkOutput ([], []) out h).1
  simpa using hh

/-- Witness for C1 at a concrete walk: `[str].py` is enumerated before
`normal.py`, yet `normal` is yielded first, and the subdirectory's routes
follow in walk order. -/
theorem c1_ordering_witness :
    collectRoutesFromDirectory djangoFramework (chars "routes") c1walkExample [chars "py"]
        = .ok c1outExample ∧
    c1outExample.1 = c1walkExample.flatMap (fun entry =>
      ((entry.2.filterMap (routeOfFilename djangoFramework (chars "routes" ++ entry.1)
          (directoryExpandConverters djangoFramework entry.1) [chars "py"])).filter
        (fun r => r.is_wildcard = false)) ++
      ((entry.2.filterMap (routeOfFilename djangoFramework (chars "routes" ++ entry.1)
          (directoryExpandConverters djangoFramework entry.1) [chars "py"])).filter
        (fun r => r.is_wildcard = true))) :=
  ⟨by decide, c1_ordering djangoFramework (chars "routes") c1walkExample [chars "py"]
    c1outExample (by decide)⟩

/-- C2, counterexample to the claim as stated: under the directory `[id]`
(whose expansion is a transformation, as `specDirectoryWasTransformed`
records), the file `normal.py` still yields a RouteDescriptor with
`isWildcard = false`, because `directory_expand_converters` discards the
was-transformed flag of every directory segment. -/
theorem c2_counterexample :
    specDirectoryWasTransformed djangoFramework (chars "/[id]") = true ∧
    directoryExpandConverters djangoFramework (chars "/[id]") = chars "<str:id>" ∧
    routeOfFilename djangoFramework (chars "routes/[id]") (chars "<str:id>") [chars "py"]
        (chars "normal.py") =
      some ⟨chars "routes/[id]/normal.py", chars "<str:id>/normal", false⟩ ∧
    visitOneDirectory djangoFramework (chars "routes/[id]") (chars "<str:id>")
        [chars "normal.py"] [chars "py"] =
      .ok ([⟨chars "routes/[id]/normal.py", chars "<str:id>/normal", false⟩],
           [Diag.w005InvalidCharacters (chars "normal.py") (chars "normal")]) := by decide

/-- C2, amended: `isWildcard` is true iff the file's own stem (not being
`index`) was a transformed bracket segment; the directory prefix plays no
part in the flag, as the right-hand side does not depend on the directory
route at all. -/
theorem c2_wildcard_flag (fw : WebFramework) (d dr : List Char)
    (exts : List (List Char)) (fn : List Char) (se : List Char × List Char)
    (r : FileRouteInfo) (hs : rsplitDot fn = some se)
    (hr : routeOfFilename fw d dr exts fn = some r) :
    r.is_wildcard = (if se.1 = indexStem then false else (expandFilename fw se.1).2) := by
  unfold routeOfFilename at hr
  rw [hs] at hr
  by_cases hext : se.2 ∈ exts
  · by_cases hinit : se.1 = initStem
    · simp [hext, hinit] at hr
    · have hr2 : some (⟨osPathJoin2 d fn, (routeForStem fw dr se.1).1,
          (routeForStem fw dr se.1).2⟩ : FileRouteInfo) = some r := by
        rw [← hr]
        simp [hext, hinit]
      injection hr2 with h3
      rw [← h3]
      exact routeForStem_snd fw dr se.1
  · simp [hext] at hr

/-- Witness for C2's amended theorem at the counterexample's input. -/
theorem c2_wildcard_flag_witness :
    (⟨chars "routes/[id]/normal.py", chars "<str:id>/normal", false⟩ : FileRouteInfo).is_wildcard
      = (if chars "normal" = indexStem then false
         else (expandFilename djangoFramework (chars "normal")).2) :=
  c2_wildcard_flag djangoFramework (chars "routes/[id]") (chars "<str:id>") [chars "py"]
    (chars "normal.py") (chars "normal", chars "py")
    ⟨chars "routes/[id]/normal.py", chars "<str:id>/normal", false⟩
    (by decide) (by decide)

/-- C3, counterexample to the claim as stated: the bracket segment
`[badtoken_name]` parses with explicit converter token `badtoken`, which is
in neither adapter's converter set, and BOTH adapters emit the unknown
token verbatim into the placeholder instead of degrading to the string
converter. -/
theorem c3_counterexample :
    reWildcardMatch (chars "[badtoken_name]") = some (some (chars "badtoken"), chars "name") ∧
    ¬ chars "badtoken" ∈ djangoFramework.knownConverters ∧
    expandFilename djangoFramework (chars "[badtoken_name]") = (chars "<badtoken:name>", true) ∧
    ¬ chars "badtoken" ∈ flaskFramework.knownConverters ∧
    expandFilename flaskFramework (chars "[badtoken_name]") = (chars "<badtoken:name>", true) := by
  decide

/-- C3, amended: expansion never fails; an explicit converter token is
rendered verbatim (even when unknown to the adapter), and the degrade to
the adapter's generic string converter applies exactly when the converter
token is omitted and the bare name is not itself a known converter
token. -/
theorem c3_converter_degrade (fw : WebFramework) (s conv nm : List Char) :
    (reWildcardMatch s = some (some conv, nm) →
      expandFilename fw s = ('<' :: (conv ++ ':' :: (nm ++ ['>'])), true)) ∧
    (reWildcardMatch s = some (none, nm) → ¬ nm ∈ fw.knownConverters →
      expandFilename fw s = ('<' :: (fw.defaultConverter ++ ':' :: (nm ++ ['>'])), true)) := by
  constructor
  · intro h
    simp [expandFilename, h, expandWildcards]
  · intro h hnot
    simp [expandFilename, h, expandWildcards, hnot]

/-- C4, evaluation at the failing input: for stem `home` the function
candidates behave as claimed (`home_view` wins), but the class candidate
list is seeded with `View` FIRST and `HomeView` appended after it (the
source's own comment documents the opposite order), so a module exporting
proper subclasses under both names resolves to the one named `View`. -/
theorem c4_class_candidate_order :
    getDefaultViewName c4route = some (chars "home") ∧
    underscoreToCamelCase (chars "home") ++ viewUpper = chars "HomeView" ∧
    (findView c4route c4funcModule).1 = some (ViewHandle.functionView (chars "home_view")) ∧
    (findView c4route c4classModule).1 = some (ViewHandle.classAsView (chars "View")) ∧
    ¬ (findView c4route c4classModule).1 = some (ViewHandle.classAsView (chars "HomeView")) := by
  decide

/-- C5, evaluation at the failing inputs: `route_contains_invalid_characters`
computes the set difference the wrong way round, so the all-legal stem
`home` is reported (every character survives the subtraction) and triggers
the W005 diagnostic, while the all-forbidden stem `<>` yields the empty set
and no diagnostic; in both cases the entry is still processed into a
route. -/
theorem c5_invalid_characters_inverted :
    (∀ c ∈ chars "home", ¬ c ∈ forbiddenFilenameChars) ∧
    routeContainsInvalidCharacters (chars "home") = chars "home" ∧
    (∀ c ∈ chars "<>", c ∈ forbiddenFilenameChars) ∧
    routeContainsInvalidCharacters (chars "<>") = [] ∧
    visitOneDirectory djangoFramework (chars "routes") [] [chars "home.py"] [chars "py"] =
      .ok ([⟨chars "routes/home.py", chars "home", false⟩],
           [Diag.w005InvalidCharacters (chars "home.py") (chars "home")]) ∧
    visitOneDirectory djangoFramework (chars "routes") [] [chars "<>.py"] [chars "py"] =
      .ok ([⟨chars "routes/<>.py", chars "<>", false⟩], []) := by
  decide

/-- C6, counterexample to the claim as stated: loading `routes/home.py`
twice executes the file twice (the execution counter reaches 2) and the
second load replaces the registered module with a fresh object (execution
stamp 1 instead of 0) — re-loading is not idempotent. -/
theorem c6_counterexample :
    filenameToModulePath (chars "routes/home.py") = chars "routes.home" ∧
    importFilenameAndGuessModuleFromPath (fun _ => []) ⟨[], 0⟩ (chars "routes/home.py") =
      (⟨chars "routes.home", [], 0⟩,
       ⟨[(chars "routes.home", ⟨chars "routes.home", [], 0⟩)], 1⟩) ∧
    importFilenameAndGuessModuleFromPath (fun _ => [])
        ⟨[(chars "routes.home", ⟨chars "routes.home", [], 0⟩)], 1⟩ (chars "routes/home.py") =
      (⟨chars "routes.home", [], 1⟩,
       ⟨[(chars "routes.home", ⟨chars "routes.home", [], 1⟩)], 2⟩) := by
  decide

/-- C6, amended: every load registers the synthesized identity (the path
with "/" replaced by ".") in the process-wide registry, overwriting any
previous entry with a freshly executed module; each call performs exactly
one new execution. -/
theorem c6_register_each_load (disk : List Char → List (List Char × Attr))
    (st : ImportState) (filename : List Char) :
    lookupModule (filenameToModulePath filename)
        (importFilenameAndGuessModuleFromPath disk st filename).2.sysModules =
      some (importFilenameAndGuessModuleFromPath disk st filename).1 ∧
    (importFilenameAndGuessModuleFromPath disk st filename).2.execCount = st.execCount + 1 ∧
    (importFilenameAndGuessModuleFromPath disk st filename).1.execId = st.execCount := by
  unfold importFilenameAndGuessModuleFromPath
  exact ⟨lookupModule_setModule _ _ _, rfl, rfl⟩

/-- C7, evaluation at the failing input: the discovery pass over a module
with no view completes (no diagnostic terminates it), returns an empty
route list, and leaves only modules in the process-wide registry, while the
W005 and W004 diagnostics were constructed and immediately discarded — the
trace below is recoverable from no output the caller receives; likewise the
Flask adapter constructs and discards the W006 wrong-typed-attribute
diagnostic while still returning the view. -/
theorem c7_discarded_diagnostics :
    visitAndAnalyze djangoAnalyze djangoFramework (fun _ => []) (chars "routes")
        [([], [chars "home.py"])] [chars "py"] ⟨[], 0⟩ =
      .ok ([], ⟨[(chars "routes.home", ⟨chars "routes.home", [], 0⟩)], 1⟩,
        [Diag.w005InvalidCharacters (chars "home.py") (chars "home"),
         Diag.w004CouldNotFindView (chars "home")]) ∧
    flaskAnalyze c7route c7flaskModule =
      (some (ViewHandle.classAsViewNamed (chars "View") (chars "home")), c7flaskModule,
        [Diag.w006WrongType (chars "routes.home") (chars "route_name")]) := by
  decide

/-- One search step when the candidate's attribute is absent. -/
theorem findFunctionByName_cons_none (m : InspectedModuleInfo) (c : List Char)
    (rest : List (List Char)) (hl : lookupAttr c m.attributes = none) :
    findFunctionByName m (c :: rest) = findFunctionByName m rest := by
  have h0 : findFunctionByName m (c :: rest) = (match lookupAttr c m.attributes with
      | none => findFunctionByName m rest
      | some Attr.pyfunction => (some c, m)
      | some _ =>
        findFunctionByName (addWarning m (.w001NotAFunction c m.moduleName)) rest) := rfl
  rw [hl] at h0
  exact h0

/-- One search step when the candidate's attribute is a function. -/
theorem findFunctionByName_cons_fun (m : InspectedModuleInfo) (c : List Char)
    (rest : List (List Char)) (hl : lookupAttr c m.attributes = some Attr.pyfunction) :
    findFunctionByName m (c :: rest) = (some c, m) := by
  have h0 : findFunctionByName m (c :: rest) = (match lookupAttr c m.attributes with
      | none => findFunctionByName m rest
      | some Attr.pyfunction => (some c, m)
      | some _ =>
        findFunctionByName (addWarning m (.w001NotAFunction c m.moduleName)) rest) := rfl
  rw [hl] at h0
  exact h0

/-- One search step when the candidate's attribute exists but is not a
function: warn and continue. -/
theorem findFunctionByName_cons_nonfun (m : InspectedModuleInfo) (c : List Char)
    (rest : List (List Char)) (a : Attr) (hl : lookupAttr c m.attributes = some a)
    (ha : ¬ a = Attr.pyfunction) :
    findFunctionByName m (c :: rest) =
      findFunctionByName (addWarning m (.w001NotAFunction c m.moduleName)) rest := by
  have h0 : findFunctionByName m (c :: rest) = (match lookupAttr c m.attributes with
      | none => findFunctionByName m rest
      | some Attr.pyfunction => (some c, m)
      | some _ =>
        findFunctionByName (addWarning m (.w001NotAFunction c m.moduleName)) rest) := rfl
  rw [hl] at h0
  cases a with
  | pyfunction => exact absurd rfl ha
  | pyclass b1 b2 => exact h0
  | pystr v => exact h0
  | pyother t => exact h0

/-- The W001 contribution of an existing non-function candidate. -/
theorem w001Of_nonfun (m : InspectedModuleInfo) (c : List Char) (a : Attr)
    (hl : lookupAttr c m.attributes = some a) (ha : ¬ a = Attr.pyfunction) :
    w001Of m c = some (.w001NotAFunction c m.moduleName) := by
  have h0 : w001Of m c = (match lookupAttr c m.attributes with
      | none => none
      | some Attr.pyfunction => none
      | some _ => some (Diag.w001NotAFunction c m.moduleName)) := rfl
  rw [hl] at h0
  cases a with
  | pyfunction => exact absurd rfl ha
  | pyclass b1 b2 => exact h0
  | pystr v => exact h0
  | pyother t => exact h0

/-- C8: `find_function_by_name` returns the first candidate whose attribute
exists and is a plain function; each earlier candidate whose attribute
exists but is not a function appends exactly one W001 warning (and only
those candidates do), the search continuing past them; with no matching
candidate the result is none.  The attribute snapshot and module name are
untouched. -/
theorem c8_find_function_by_name (m : InspectedModuleInfo) (candidates : List (List Char)) :
    (findFunctionByName m candidates).1 =
      candidates.find? (fun c => decide (lookupAttr c m.attributes = some Attr.pyfunction)) ∧
    (findFunctionByName m candidates).2.warnings =
      m.warnings ++ (candidates.takeWhile
        (fun c => !decide (lookupAttr c m.attributes = some Attr.pyfunction))).filterMap
          (w001Of m) ∧
    (findFunctionByName m candidates).2.moduleName = m.moduleName ∧
    (findFunctionByName m candidates).2.attributes = m.attributes := by
  induction candidates generalizing m with
  | nil => simp [findFunctionByName]
  | cons c rest ih =>
    cases hl : lookupAttr c m.attributes with
    | none =>
      have hstep := findFunctionByName_cons_none m c rest hl
      have hp : decide (lookupAttr c m.attributes = some Attr.pyfunction) = false := by
        simp [hl]
      have hw : w001Of m c = none := by
        have h0 : w001Of m c = (match lookupAttr c m.attributes with
            | none => none
            | some Attr.pyfunction => none
            | some _ => some (Diag.w001NotAFunction c m.moduleName)) := rfl
        rw [hl] at h0
        exact h0
      obtain ⟨i1, i2, i3, i4⟩ := ih m
      rw [hstep]
      refine ⟨?_, ?_, i3, i4⟩
      · rw [i1]
        simp [List.find?_cons, hp]
      · rw [i2]
        simp [List.takeWhile_cons, hp, List.filterMap_cons, hw]
    | some a =>
      by_cases ha : a = Attr.pyfunction
      · subst ha
        have hstep := findFunctionByName_cons_fun m c rest hl
        have hp : decide (lookupAttr c m.attributes = some Attr.pyfunction) = true := by
          simp [hl]
        rw [hstep]
        refine ⟨?_, ?_, rfl, rfl⟩
        · simp [List.find?_cons, hp]
        · simp [List.takeWhile_cons, hp]
      · have hstep := findFunctionByName_cons_nonfun m c rest a hl ha
        have hp : decide (lookupAttr c m.attributes = some Attr.pyfunction) = false := by
          simp [hl, ha]
        have hw := w001Of_nonfun m c a hl ha
        have e2 : (addWarning m (.w001NotAFunction c m.moduleName)).attributes
            = m.attributes := rfl
        have e3 : (addWarning m (.w001NotAFunction c m.moduleName)).warnings
            = m.warnings ++ [Diag.w001NotAFunction c m.moduleName] := rfl
        have e4 : w001Of (addWarning m (.w001NotAFunction c m.moduleName)) = w001Of m := rfl
        obtain ⟨i1, i2, i3, i4⟩ := ih (addWarning m (.w001NotAFunction c m.moduleName))
        rw [hstep]
        refine ⟨?_, ?_, i3, i4⟩
        · rw [i1, e2]
          simp [List.find?_cons, hp]
        · rw [i2, e2, e3, e4]
          simp [List.takeWhile_cons, hp, List.filterMap_cons, hw, List.append_assoc]

/-- C9: a file with stem `index` directly under the root (whose directory
route is the expansion of the empty relative path, i.e. empty) yields the
route name "", under a directory with route prefix `dr` it yields
`dr ++ "/"`; a file with stem `__init__` contributes no route, and every
route the walk yields comes from some enumerated filename's contribution,
so no `__init__` file yields a route anywhere in the tree. -/
theorem c9_index_and_init (fw : WebFramework) (rootDirectory : List Char)
    (walkOutput : List (List Char × List (List Char))) (extensions : List (List Char))
    (out : List FileRouteInfo × List Diag) (d dr fn : List Char) (se : List Char × List Char)
    (hcollect : collectRoutesFromDirectory fw rootDirectory walkOutput extensions = .ok out)
    (hs : rsplitDot fn = some se) :
    (se.1 = initStem → routeOfFilename fw d dr extensions fn = none) ∧
    (se.1 = indexStem → se.2 ∈ extensions →
      routeOfFilename fw d dr extensions fn =
        some ⟨osPathJoin2 d fn, if dr = [] then dr else dr ++ ['/'], false⟩) ∧
    directoryExpandConverters fw [] = [] ∧
    (∀ r ∈ out.1, ∃ entry ∈ walkOutput, ∃ f ∈ entry.2,
      routeOfFilename fw (rootDirectory ++ entry.1)
        (directoryExpandConverters fw entry.1) extensions f = some r) := by
  refine ⟨?_, ?_, ?_, ?_⟩
  · intro hinit
    unfold routeOfFilename
    rw [hs]
    by_cases hext : se.2 ∈ extensions <;> simp [hext, hinit]
  · intro hidx hext
    have hne : ¬ se.1 = initStem := by
      rw [hidx]
      decide
    have h0 : routeOfFilename fw d dr extensions fn = (if se.2 ∈ extensions then
        if se.1 = initStem then none
        else (let rs := routeForStem fw dr se.1;
              some (⟨osPathJoin2 d fn, rs.1, rs.2⟩ : FileRouteInfo))
      else none) := by
      unfold routeOfFilename
      rw [hs]
    rw [h0, if_pos hext, if_neg hne, hidx]
    simp [routeForStem]
  · rfl
  · intro r hr
    unfold collectRoutesFromDirectory at hcollect
    have hh := (collect_fold_ok fw rootDirectory extensions walkOutput ([], []) out hcollect).1
    rw [List.nil_append] at hh
    rw [hh] at hr
    rw [List.mem_flatMap] at hr
    obtain ⟨entry, hentry, hrmem⟩ := hr
    rw [List.mem_append] at hrmem
    refine ⟨entry, hentry, ?_⟩
    cases hrmem with
    | inl h1 =>
      obtain ⟨f, hf, hff⟩ := List.mem_filterMap.mp (List.mem_filter.mp h1).1
      exact ⟨f, hf, hff⟩
    | inr h1 =>
      obtain ⟨f, hf, hff⟩ := List.mem_filterMap.mp (List.mem_filter.mp h1).1
      exact ⟨f, hf, hff⟩

/-- Witness for C9 at a concrete tree: `index.py` at the root and in the
subdirectory `blog`, with a package marker alongside. -/
theorem c9_index_and_init_witness :
    (chars "index" = initStem →
      routeOfFilename djangoFramework (chars "routes/blog") (chars "blog") [chars "py"]
        (chars "index.py") = none) ∧
    (chars "index" = indexStem → chars "py" ∈ [chars "py"] →
      routeOfFilename djangoFramework (chars "routes/blog") (chars "blog") [chars "py"]
          (chars "index.py") =
        some ⟨osPathJoin2 (chars "routes/blog") (chars "index.py"),
          if chars "blog" = [] then chars "blog" else chars "blog" ++ ['/'], false⟩) ∧
    directoryExpandConverters djangoFramework [] = [] ∧
    (∀ r ∈ c9outExample.1, ∃ entry ∈ c9walkExample, ∃ f ∈ entry.2,
      routeOfFilename djangoFramework (chars "routes" ++ entry.1)
        (directoryExpandConverters djangoFramework entry.1) [chars "py"] f = some r) :=
  c9_index_and_init djangoFramework (chars "routes") c9walkExample [chars "py"] c9outExample
    (chars "routes/blog") (chars "blog") (chars "index.py") (chars "index", chars "py")
    (by decide) (by decide)

/-- C10: `visit_one_directory` completes exactly when every enumerated
filename contains exactly one dot; a single filename with zero or several
dots (for example `a.tar.gz`) makes the whole call raise the unpacking
ValueError — whatever the configured extension set, so the failure happens
before the extension filter could have rejected the entry. -/
theorem c10_unpacking (fw : WebFramework) (d dr : List Char) (fns exts : List (List Char)) :
    ((∀ fn ∈ fns, fn.count '.' = 1) ↔
      ∃ out, visitOneDirectory fw d dr fns exts = .ok out) ∧
    ((∃ fn ∈ fns, ¬ fn.count '.' = 1) →
      visitOneDirectory fw d dr fns exts = .error .valueError) := by
  have htot := visit_fold_total fw d dr exts fns ⟨[], [], []⟩
  have hiff : (∃ out, visitOneDirectory fw d dr fns exts = .ok out) ↔
      ∀ fn ∈ fns, fn.count '.' = 1 := by
    constructor
    · rintro ⟨out, hout⟩
      apply htot.mp
      unfold visitOneDirectory at hout
      cases hf : fns.foldlM (visitStep fw d dr exts) ⟨[], [], []⟩ with
      | error e => rw [hf] at hout; exact absurd hout (by simp [Bind.bind, Except.bind])
      | ok st => exact ⟨st, rfl⟩
    · intro hall
      obtain ⟨st, hst⟩ := htot.mpr hall
      refine ⟨(st.normalRoutes ++ st.wildcardRoutes, st.constructed), ?_⟩
      unfold visitOneDirectory
      rw [hst]
      rfl
  refine ⟨hiff.symm, ?_⟩
  rintro ⟨fn, hmem, hcnt⟩
  cases hv : visitOneDirectory fw d dr fns exts with
  | ok out => exact absurd (hiff.mp ⟨out, hv⟩ fn hmem) hcnt
  | error e => cases e; rfl

end FileRoutes
